import Mathlib

/-!
# Verification of the geoJSON batch-enrichment engine

Shallow embedding of the decision logic of the repository's Python sources
(`optimized_geo_generator.py`, `geocode-new.py`, `geocode_restaurants.py`,
`batch.py`) together with proofs settling the frozen claims about the
natural-language specification.

Numbers that are Python floats are modelled as rationals (`ℚ`); Python's
`round(x, n)` (round-half-to-even) is modelled exactly on `ℚ`.  Fallible
code is modelled with `Option`/`Except`.  Network calls are modelled by
passing the per-attempt outcome stream as an explicit argument.
-/

namespace GeoJson

/-- Python's banker's rounding (`round(x)`) on a rational: round to the
nearest integer, ties to the even integer. -/
def pyRoundInt (q : ℚ) : ℤ :=
  if q - ⌊q⌋ < 1/2 then ⌊q⌋
  else if q - ⌊q⌋ > 1/2 then ⌊q⌋ + 1
  else if Even ⌊q⌋ then ⌊q⌋ else ⌊q⌋ + 1

/-- Python's `round(x, d)` on a rational. -/
def pyRound (d : ℕ) (q : ℚ) : ℚ :=
  (pyRoundInt (q * (10 : ℚ) ^ d) : ℚ) / (10 : ℚ) ^ d

theorem pyRoundInt_ge_floor (q : ℚ) : ⌊q⌋ ≤ pyRoundInt q := by
  unfold pyRoundInt
  split_ifs <;> omega

/-! ## Traffic model (`optimized_geo_generator.py`, class `HistoricalTrafficModel`)

The model state is the table of learned patterns (`self.learned_patterns`),
a dictionary keyed by `(pincode, hour, day_of_week)`.  The static tables
(`CITY_BASE_FACTORS`, `HOURLY_FACTORS`, ...) are embedded as functions. -/

/-- One entry of `self.learned_patterns` (built by `_load_learning_data`:
`{'speed_kmh': ..., 'confidence': min(sample_count / 10, 1.0)}`). -/
structure LearnedPattern where
  speed_kmh : ℚ
  confidence : ℚ
deriving DecidableEq

/-- The mutable state of `HistoricalTrafficModel` that the computations
read: the learned-pattern dictionary, as a partial map. -/
def TrafficModelState : Type := String × ℤ × ℤ → Option LearnedPattern

/-- `_load_learning_data` stores `confidence = min(sample_count/10, 1.0)`
for a positive sample count, so every stored confidence lies in `[0, 1]`.
A model state satisfying this is well formed. -/
def TrafficModelState.WellFormed (m : TrafficModelState) : Prop :=
  ∀ k p, m k = some p → 0 ≤ p.confidence ∧ p.confidence ≤ 1

/-- `CITY_BASE_FACTORS` with the `.get(city, CITY_BASE_FACTORS['default'])`
lookup used in `calculate_traffic_factor`. -/
def CITY_BASE_FACTORS (city : String) : ℚ :=
  if city = "mumbai" then 45/100
  else if city = "bangalore" then 50/100
  else if city = "delhi" then 52/100
  else if city = "ncr" then 52/100
  else if city = "gurgaon" then 48/100
  else if city = "noida" then 55/100
  else if city = "pune" then 58/100
  else if city = "hyderabad" then 60/100
  else if city = "chennai" then 58/100
  else if city = "kolkata" then 55/100
  else if city = "ahmedabad" then 65/100
  else if city = "jaipur" then 68/100
  else if city = "lucknow" then 70/100
  else if city = "kochi" then 70/100
  else if city = "coimbatore" then 72/100
  else if city = "indore" then 72/100
  else if city = "nagpur" then 73/100
  else if city = "surat" then 70/100
  else if city = "visakhapatnam" then 72/100
  else if city = "bhopal" then 73/100
  else if city = "tier3" then 80/100
  else 75/100

/-- `HOURLY_FACTORS` with the `.get(hour, 1.0)` lookup. -/
def HOURLY_FACTORS (hour : ℤ) : ℚ :=
  if hour = 0 then 95/100
  else if hour = 1 then 98/100
  else if hour = 2 then 99/100
  else if hour = 3 then 99/100
  else if hour = 4 then 98/100
  else if hour = 5 then 90/100
  else if hour = 6 then 80/100
  else if hour = 7 then 60/100
  else if hour = 8 then 50/100
  else if hour = 9 then 55/100
  else if hour = 10 then 70/100
  else if hour = 11 then 75/100
  else if hour = 12 then 70/100
  else if hour = 13 then 75/100
  else if hour = 14 then 80/100
  else if hour = 15 then 75/100
  else if hour = 16 then 70/100
  else if hour = 17 then 60/100
  else if hour = 18 then 50/100
  else if hour = 19 then 55/100
  else if hour = 20 then 60/100
  else if hour = 21 then 70/100
  else if hour = 22 then 80/100
  else if hour = 23 then 90/100
  else 1

/-- `DAY_FACTORS` with the `.get(day_of_week, 1.0)` lookup. -/
def DAY_FACTORS (day : ℤ) : ℚ :=
  if day = 0 then 95/100
  else if day = 1 then 93/100
  else if day = 2 then 92/100
  else if day = 3 then 93/100
  else if day = 4 then 90/100
  else if day = 5 then 1
  else if day = 6 then 105/100
  else 1

/-- `SEASON_FACTORS` with the `.get(season, 1.0)` lookup. -/
def SEASON_FACTORS (season : String) : ℚ :=
  if season = "monsoon" then 75/100
  else if season = "winter" then 95/100
  else if season = "summer" then 90/100
  else if season = "festival" then 65/100
  else 1

/-- `AREA_TYPE_FACTORS` with the `.get(area_type, 0.80)` lookup. -/
def AREA_TYPE_FACTORS (area : String) : ℚ :=
  if area = "cbd" then 55/100
  else if area = "commercial" then 65/100
  else if area = "residential" then 80/100
  else if area = "industrial" then 75/100
  else if area = "suburban" then 85/100
  else if area = "rural" then 95/100
  else 80/100

/-- `detect_city_from_pincode`: dispatch on the first three characters of
the pincode string; short or unrecognized pincodes give `'default'`. -/
def detect_city_from_pincode (pincode : String) : String :=
  if pincode = "" ∨ pincode.length < 3 then "default"
  else
    let p3 := String.mk (pincode.toList.take 3)
    if p3 = "110" ∨ p3 = "111" then "delhi"
    else if p3 = "112" then "ncr"
    else if p3 = "121" ∨ p3 = "122" then "gurgaon"
    else if p3 = "201" ∨ p3 = "202" then "noida"
    else if p3 = "400" ∨ p3 = "401" ∨ p3 = "421" ∨ p3 = "422" then "mumbai"
    else if p3 = "560" ∨ p3 = "562" then "bangalore"
    else if p3 = "600" ∨ p3 = "601" then "chennai"
    else if p3 = "500" ∨ p3 = "501" then "hyderabad"
    else if p3 = "411" ∨ p3 = "412" then "pune"
    else if p3 = "380" then "ahmedabad"
    else if p3 = "700" ∨ p3 = "711" then "kolkata"
    else if p3 = "302" then "jaipur"
    else if p3 = "682" then "kochi"
    else if p3 = "641" then "coimbatore"
    else if p3 = "226" then "lucknow"
    else if p3 = "452" then "indore"
    else if p3 = "440" then "nagpur"
    else if p3 = "395" then "surat"
    else if p3 = "530" then "visakhapatnam"
    else if p3 = "462" then "bhopal"
    else "default"

/-- Python `str.isdigit` (ASCII digits) on a Lean string. -/
def strIsDigit (s : String) : Bool :=
  s ≠ "" ∧ s.toList.all Char.isDigit

/-- Parse a digit string as a natural number (used where the source calls
`int(...)` on a string it has checked to be digits). -/
def digitsToNat (s : String) : ℕ :=
  s.toList.foldl (fun acc c => 10 * acc + (c.toNat - 48)) 0

/-- `detect_area_type`: known CBD/commercial pincode lists first, then the
lower-trailing-digits heuristic for the five metro cities. -/
def detect_area_type (pincode : String) : String :=
  if pincode = "560001" ∨ pincode = "560002" ∨ pincode = "560009" then "cbd"
  else if pincode = "560100" ∨ pincode = "560103" ∨ pincode = "560038" then "commercial"
  else if pincode = "110001" ∨ pincode = "110002" ∨ pincode = "110003" then "cbd"
  else if pincode = "400001" ∨ pincode = "400021" ∨ pincode = "400051" then "cbd"
  else if pincode = "600001" ∨ pincode = "600002" then "cbd"
  else
    let city := detect_city_from_pincode pincode
    if city = "mumbai" ∨ city = "delhi" ∨ city = "bangalore" ∨
       city = "chennai" ∨ city = "kolkata" then
      let pincode_int : ℕ := if strIsDigit pincode then digitsToNat pincode else 0
      let city_base : ℕ := digitsToNat (String.mk (pincode.toList.take 3)) * 1000
      if pincode_int < city_base + 20 then "commercial"
      else if pincode_int < city_base + 50 then "residential"
      else "suburban"
    else "residential"

/-- `get_current_season`: only the month of the date matters. -/
def get_current_season (month : ℤ) : String :=
  if month = 6 ∨ month = 7 ∨ month = 8 ∨ month = 9 then "monsoon"
  else if month = 10 ∨ month = 11 ∨ month = 12 ∨ month = 1 ∨ month = 2 then "winter"
  else "summer"

/-- `calculate_traffic_factor`.  The `date` argument only feeds the season
computation, so it is represented by its month. -/
def calculate_traffic_factor (m : TrafficModelState) (pincode : String)
    (hour day_of_week month : ℤ) : ℚ :=
  let learned := m (pincode, hour, day_of_week)
  let confidence : ℚ := match learned with
    | some p => p.confidence
    | none => 0
  let learned_factor : ℚ := match learned with
    | some p => max (3/10) (min 1 (p.speed_kmh / 30))
    | none => 0
  if learned.isSome ∧ confidence > 7/10 then
    learned_factor
  else
    let city := detect_city_from_pincode pincode
    let area_type := detect_area_type pincode
    let season := get_current_season month
    let city_factor := CITY_BASE_FACTORS city
    let hour_factor := HOURLY_FACTORS hour
    let day_factor := DAY_FACTORS day_of_week
    let area_factor := AREA_TYPE_FACTORS area_type
    let season_factor := SEASON_FACTORS season
    let default_factor₀ := city_factor * hour_factor * day_factor * area_factor * season_factor
    let default_factor := max (3/10) (min 1 default_factor₀)
    if confidence > 0 then
      learned_factor * confidence + default_factor * (1 - confidence)
    else
      default_factor

/-- `adjust_distance_for_traffic`: `round(distance_km * factor, 2)`. -/
def adjust_distance_for_traffic (m : TrafficModelState) (distance_km : ℚ)
    (pincode : String) (hour day_of_week month : ℤ) : ℚ :=
  pyRound 2 (distance_km * calculate_traffic_factor m pincode hour day_of_week month)

/-- `adjust_time_for_traffic`: `int(round(time_minutes / factor))` when the
factor is positive, else the `time_minutes * 2` safety fallback. -/
def adjust_time_for_traffic (m : TrafficModelState) (time_minutes : ℤ)
    (pincode : String) (hour day_of_week month : ℤ) : ℤ :=
  if calculate_traffic_factor m pincode hour day_of_week month > 0 then
    pyRoundInt ((time_minutes : ℚ) / calculate_traffic_factor m pincode hour day_of_week month)
  else time_minutes * 2

/-! Shared bounds lemma for the traffic factor, used by several claims. -/

theorem clamp_bounds (x : ℚ) : 3/10 ≤ max (3/10) (min 1 x) ∧ max (3/10) (min 1 x) ≤ 1 := by
  constructor
  · exact le_max_left _ _
  · rcases le_total x 1 with h | h
    · have : min 1 x ≤ 1 := min_le_left _ _
      simp only [max_le_iff]
      exact ⟨by norm_num, this⟩
    · have : min 1 x = 1 := min_eq_left h
      rw [this]
      norm_num

theorem traffic_factor_bounds (m : TrafficModelState) (hm : m.WellFormed)
    (pincode : String) (hour day_of_week month : ℤ) :
    3/10 ≤ calculate_traffic_factor m pincode hour day_of_week month ∧
      calculate_traffic_factor m pincode hour day_of_week month ≤ 1 := by
  unfold calculate_traffic_factor
  cases hlp : m (pincode, hour, day_of_week) with
  | none =>
    simp only [hlp, Option.isSome_none, Bool.false_eq_true, false_and, dite_false, gt_iff_lt,
      lt_self_iff_false, if_false]
    exact clamp_bounds _
  | some p =>
    have hconf := hm _ p hlp
    have hlf := clamp_bounds (p.speed_kmh / 30)
    have hdf := clamp_bounds (CITY_BASE_FACTORS (detect_city_from_pincode pincode) *
      HOURLY_FACTORS hour * DAY_FACTORS day_of_week *
      AREA_TYPE_FACTORS (detect_area_type pincode) *
      SEASON_FACTORS (get_current_season month))
    simp only [hlp, Option.isSome_some, true_and, gt_iff_lt]
    split
    · exact hlf
    · split
      · constructor
        · nlinarith [hlf.1, hlf.2, hdf.1, hdf.2, hconf.1, hconf.2]
        · nlinarith [hlf.1, hlf.2, hdf.1, hdf.2, hconf.1, hconf.2]
      · exact hdf

end GeoJson

/-- C2: for every postal-code string, integer hour, integer day-of-week and
date (month), and any well-formed learned-pattern table, the traffic factor
returned by `calculate_traffic_factor` lies in `[0.30, 1.0]`. -/
theorem C2_traffic_factor_in_range (m : GeoJson.TrafficModelState)
    (hm : m.WellFormed) (pincode : String) (hour day_of_week month : ℤ) :
    3/10 ≤ GeoJson.calculate_traffic_factor m pincode hour day_of_week month ∧
      GeoJson.calculate_traffic_factor m pincode hour day_of_week month ≤ 1 :=
  GeoJson.traffic_factor_bounds m hm pincode hour day_of_week month

/-- Witness for C2 at a concrete model with no learned patterns, an
out-of-range hour and day, and a metro pincode. -/
theorem C2_traffic_factor_in_range_witness :
    GeoJson.TrafficModelState.WellFormed (fun _ => none) ∧
      (3/10 ≤ GeoJson.calculate_traffic_factor
          (fun _ => none) "560001" 99 (-5) 13 ∧
        GeoJson.calculate_traffic_factor
          (fun _ => none) "560001" 99 (-5) 13 ≤ 1) := by
  refine ⟨fun k p h => Option.noConfusion h, ?_⟩
  exact C2_traffic_factor_in_range (fun _ => none)
    (fun k p h => Option.noConfusion h) "560001" 99 (-5) 13

/-- C7 counterexample: with a fully-confident learned pattern of 60 km/h
the traffic factor is exactly 1, yet `adjust_distance_for_traffic` maps the
requested 1.234 km to 1.23 km (rounding to 2 decimals), not to 1.234 km. -/
theorem C7_counterexample :
    GeoJson.calculate_traffic_factor
        (fun _ => some { speed_kmh := 60, confidence := 1 }) "400001" 8 0 1 = 1 ∧
      GeoJson.adjust_distance_for_traffic
          (fun _ => some { speed_kmh := 60, confidence := 1 })
          (1234/1000) "400001" 8 0 1 = 123/100 ∧
      (123/100 : ℚ) ≠ 1234/1000 := by
  have hf : GeoJson.calculate_traffic_factor
      (fun _ => some { speed_kmh := 60, confidence := 1 }) "400001" 8 0 1 = 1 := by
    unfold GeoJson.calculate_traffic_factor
    norm_num
  refine ⟨hf, ?_, by norm_num⟩
  unfold GeoJson.adjust_distance_for_traffic
  rw [hf, mul_one]
  have hfl : ⌊(1234/1000 * (10:ℚ)^2 : ℚ)⌋ = 123 := by norm_num [Int.floor_eq_iff]
  unfold GeoJson.pyRound GeoJson.pyRoundInt
  rw [hfl]
  norm_num

/-- C7 (amended): when the traffic factor equals 1.0, `adjust_distance_for_traffic`
returns the requested distance rounded to two decimals; in particular it
returns the requested distance unchanged exactly when that distance already
equals its own 2-decimal rounding. -/
theorem C7_adjust_distance_identity (m : GeoJson.TrafficModelState)
    (pincode : String) (hour day_of_week month : ℤ) (distance_km : ℚ)
    (h : GeoJson.calculate_traffic_factor m pincode hour day_of_week month = 1) :
    GeoJson.adjust_distance_for_traffic m distance_km pincode hour day_of_week month =
        GeoJson.pyRound 2 distance_km ∧
      (GeoJson.pyRound 2 distance_km = distance_km →
        GeoJson.adjust_distance_for_traffic m distance_km pincode hour day_of_week month =
          distance_km) := by
  unfold GeoJson.adjust_distance_for_traffic
  rw [h, mul_one]
  exact ⟨rfl, fun h2 => h2⟩

/-- Witness for C7's amended theorem at distance 5 km and a factor-1 model. -/
theorem C7_adjust_distance_identity_witness :
    GeoJson.calculate_traffic_factor
        (fun _ => some { speed_kmh := 60, confidence := 1 }) "400001" 8 0 1 = 1 ∧
      GeoJson.adjust_distance_for_traffic
          (fun _ => some { speed_kmh := 60, confidence := 1 }) 5 "400001" 8 0 1 =
        GeoJson.pyRound 2 5 := by
  have hf : GeoJson.calculate_traffic_factor
      (fun _ => some { speed_kmh := 60, confidence := 1 }) "400001" 8 0 1 = 1 := by
    unfold GeoJson.calculate_traffic_factor
    norm_num
  exact ⟨hf,
    (C7_adjust_distance_identity (fun _ => some { speed_kmh := 60, confidence := 1 })
      "400001" 8 0 1 5 hf).1⟩

/-- C10: for a well-formed model, any positive integer number of minutes,
and any postal code, hour, day-of-week and month, the traffic-adjusted
travel time is an integer at least the requested minutes. -/
theorem C10_adjust_time_ge (m : GeoJson.TrafficModelState)
    (hm : m.WellFormed) (time_minutes : ℤ) (pincode : String)
    (hour day_of_week month : ℤ) (hpos : 1 ≤ time_minutes) :
    time_minutes ≤
      GeoJson.adjust_time_for_traffic m time_minutes pincode hour day_of_week month := by
  have hb := GeoJson.traffic_factor_bounds m hm pincode hour day_of_week month
  have hf0 : (0 : ℚ) < GeoJson.calculate_traffic_factor m pincode hour day_of_week month :=
    lt_of_lt_of_le (by norm_num) hb.1
  unfold GeoJson.adjust_time_for_traffic
  rw [if_pos hf0]
  have h1 : (time_minutes : ℚ) ≤
      (time_minutes : ℚ) / GeoJson.calculate_traffic_factor m pincode hour day_of_week month := by
    rw [le_div_iff₀ hf0]
    nlinarith [hb.2, (by exact_mod_cast hpos : (1 : ℚ) ≤ (time_minutes : ℚ))]
  have h2 : time_minutes ≤
      ⌊(time_minutes : ℚ) / GeoJson.calculate_traffic_factor m pincode hour day_of_week month⌋ :=
    Int.le_floor.mpr h1
  exact le_trans h2 (GeoJson.pyRoundInt_ge_floor _)

/-- Witness for C10 at 20 requested minutes, a metro pincode, rush hour. -/
theorem C10_adjust_time_ge_witness :
    GeoJson.TrafficModelState.WellFormed (fun _ => none) ∧ (1 : ℤ) ≤ 20 ∧
      (20 : ℤ) ≤ GeoJson.adjust_time_for_traffic (fun _ => none) 20 "400001" 8 0 7 :=
  ⟨fun k p h => Option.noConfusion h, by norm_num,
    C10_adjust_time_ge (fun _ => none) (fun k p h => Option.noConfusion h)
      20 "400001" 8 0 7 (by norm_num)⟩

namespace GeoJson

/-! ## Zone generation (`optimized_geo_generator.py`,
class `TrafficAwareIsodistanceGenerator` and `ExcelBatchProcessor`)

The Valhalla HTTP endpoint is modelled by an explicit argument giving, for
each payload and attempt index, either the `features` list of the response
JSON or the exception the attempt raised.  The feature geometries are an
opaque type `α`; `properties.update` is modelled by pairing each feature
with the record of added keys. -/

/-- Python `str.lower()` (ASCII). -/
def pyLower (s : String) : String := String.mk (s.toList.map Char.toLower)

/-- Python `str.strip()`: drop leading and trailing whitespace. -/
def pyStrip (s : String) : String :=
  String.mk (((s.toList.dropWhile Char.isWhitespace).reverse.dropWhile
    Char.isWhitespace).reverse)

/-- Maximal runs of characters satisfying `p` (accumulator holds the
current run reversed). -/
def runsBy (p : Char → Bool) (acc : List Char) : List Char → List (List Char)
  | [] => if acc.isEmpty then [] else [acc.reverse]
  | c :: cs =>
    if p c then runsBy p (c :: acc) cs
    else if acc.isEmpty then runsBy p [] cs
    else acc.reverse :: runsBy p [] cs

/-- Python list indexing (with negative-index wrap-around) into the
day-name list used by `get_traffic_metadata`; out of range raises. -/
def pyDayName (day : ℤ) : Option String :=
  let names := ["Monday", "Tuesday", "Wednesday", "Thursday", "Friday",
                "Saturday", "Sunday"]
  if 0 ≤ day ∧ day < 7 then names.get? day.toNat
  else if -7 ≤ day ∧ day < 0 then names.get? (day + 7).toNat
  else none

/-- The dictionary returned by `get_traffic_metadata`. -/
structure TrafficMetadata where
  city : String
  area_type : String
  season : String
  traffic_factor : ℚ
  traffic_condition : String
  speed_reduction_percent : ℚ
  day_of_week_name : String
  hour : ℤ
  has_learned_data : Bool
deriving DecidableEq

/-- `get_traffic_metadata`; `none` models the `IndexError` raised by the
day-name list lookup for a day outside `[-7, 6]`. -/
def get_traffic_metadata (m : TrafficModelState) (pincode : String)
    (hour day_of_week month : ℤ) : Option TrafficMetadata :=
  (pyDayName day_of_week).map fun dn =>
    let traffic_factor := calculate_traffic_factor m pincode hour day_of_week month
    { city := detect_city_from_pincode pincode
      area_type := detect_area_type pincode
      season := get_current_season month
      traffic_factor := pyRound 3 traffic_factor
      traffic_condition :=
        if traffic_factor ≥ 85/100 then "Light"
        else if traffic_factor ≥ 7/10 then "Moderate"
        else if traffic_factor ≥ 55/100 then "Heavy"
        else "Very Heavy"
      speed_reduction_percent := pyRound 1 ((1 - traffic_factor) * 100)
      day_of_week_name := dn
      hour := hour
      has_learned_data := (m (pincode, hour, day_of_week)).isSome }

/-- `_valhalla_costing_from_mode` with its `.get(mode.lower(), 'motorcycle')`. -/
def valhalla_costing_from_mode (mode : String) : String :=
  let ml := pyLower mode
  if ml = "walk" ∨ ml = "walking" ∨ ml = "pedestrian" then "pedestrian"
  else if ml = "bike" ∨ ml = "bicycle" then "bicycle"
  else if ml = "motorcycle" then "motorcycle"
  else if ml = "car" ∨ ml = "auto" then "auto"
  else "motorcycle"

/-- The request body posted to the isochrone service: exactly one contour,
either a distance (km) or a time (minutes). -/
structure IsoPayload where
  lat : ℚ
  lon : ℚ
  costing : String
  contour_distance : Option ℚ
  contour_time : Option ℤ
deriving DecidableEq

/-- The payload built by `generate_traffic_aware_distance_zone`:
`contours = [{"distance": adjusted_distance}]`. -/
def distance_zone_payload (m : TrafficModelState) (lat lon distance_km : ℚ)
    (pincode mode : String) (hour day_of_week month : ℤ) : IsoPayload :=
  { lat := lat, lon := lon
    costing := valhalla_costing_from_mode mode
    contour_distance :=
      some (adjust_distance_for_traffic m distance_km pincode hour day_of_week month)
    contour_time := none }

/-- The payload built by `generate_traffic_aware_time_zone`:
`contours = [{"time": time_minutes}]`, unadjusted. -/
def time_zone_payload (lat lon : ℚ) (time_minutes : ℤ)
    (mode : String) : IsoPayload :=
  { lat := lat, lon := lon
    costing := valhalla_costing_from_mode mode
    contour_distance := none
    contour_time := some time_minutes }

/-- Keys added to each feature's `properties` by the distance-zone
generator. -/
structure DistanceZoneProps where
  api : String
  traffic_aware : Bool
  traffic_model : String
  requested_distance_km : ℚ
  adjusted_distance_km : ℚ
  meta : TrafficMetadata
deriving DecidableEq

/-- Keys added to each feature's `properties` by the time-zone generator. -/
structure TimeZoneProps where
  api : String
  traffic_aware : Bool
  traffic_model : String
  time_minutes : ℤ
  meta : TrafficMetadata
deriving DecidableEq

/-- The `for attempt in range(max_retries)` loop shared by both zone
generators: return the first successful response's features; on an
exception retry (sleeping) unless this was the last attempt, in which case
return `None`. -/
def attemptLoop {α : Type} (responses : ℕ → Except String (List α)) :
    ℕ → ℕ → Option (List α)
  | _, 0 => none
  | i, n + 1 =>
    match responses i with
    | .ok feats => some feats
    | .error _ => if n = 0 then none else attemptLoop responses (i + 1) n

/-- Successful outcome of one distance band: the response features, each
paired with the properties the generator adds (`requested_distance_km`,
`adjusted_distance_km`, and the full traffic metadata). -/
def distance_band_features {α : Type} (m : TrafficModelState)
    (lat lon distance_km : ℚ) (pincode mode : String)
    (hour day_of_week month : ℤ) (md : TrafficMetadata)
    (post : IsoPayload → ℕ → Except String (List α)) :
    Option (List (α × DistanceZoneProps)) :=
  let adjusted := adjust_distance_for_traffic m distance_km pincode hour day_of_week month
  let payload := distance_zone_payload m lat lon distance_km pincode mode hour day_of_week month
  (attemptLoop (post payload) 0 3).map fun feats =>
    feats.map fun f =>
      (f, { api := "valhalla", traffic_aware := true, traffic_model := "historical"
            requested_distance_km := distance_km, adjusted_distance_km := adjusted
            meta := md })

/-- Successful outcome of one time band: the response features, each paired
with the properties the generator adds (`time_minutes` unadjusted and the
full traffic metadata; `traffic_aware` is `False`). -/
def time_band_features {α : Type} (lat lon : ℚ) (time_minutes : ℤ)
    (mode : String) (md : TrafficMetadata)
    (post : IsoPayload → ℕ → Except String (List α)) :
    Option (List (α × TimeZoneProps)) :=
  let payload := time_zone_payload lat lon time_minutes mode
  (attemptLoop (post payload) 0 3).map fun feats =>
    feats.map fun f =>
      (f, { api := "valhalla", traffic_aware := false, traffic_model := "historical"
            time_minutes := time_minutes, meta := md })

/-- `generate_traffic_aware_distance_zone`: the day-name `IndexError` from
`get_traffic_metadata` propagates; otherwise the band either succeeds with
tagged features or returns `None` after exhausting retries. -/
def generate_traffic_aware_distance_zone {α : Type} (m : TrafficModelState)
    (lat lon distance_km : ℚ) (pincode mode : String)
    (hour day_of_week month : ℤ)
    (post : IsoPayload → ℕ → Except String (List α)) :
    Except String (Option (List (α × DistanceZoneProps))) :=
  match get_traffic_metadata m pincode hour day_of_week month with
  | none => .error "IndexError"
  | some md =>
    .ok (distance_band_features m lat lon distance_km pincode mode hour day_of_week month md post)

/-- `generate_traffic_aware_time_zone`: as above but with no traffic
adjustment of the contour value. -/
def generate_traffic_aware_time_zone {α : Type} (m : TrafficModelState)
    (lat lon : ℚ) (time_minutes : ℤ) (pincode mode : String)
    (hour day_of_week month : ℤ)
    (post : IsoPayload → ℕ → Except String (List α)) :
    Except String (Option (List (α × TimeZoneProps))) :=
  match get_traffic_metadata m pincode hour day_of_week month with
  | none => .error "IndexError"
  | some md => .ok (time_band_features lat lon time_minutes mode md post)

/-- One member of the combined feature collection, tagged with
`provider_name`, `zone_type` and the band label value. -/
inductive ZoneFeature (α : Type) where
  | distanceZone (feature : α) (props : DistanceZoneProps)
      (provider_name : String) (label_km : ℚ)
  | timeZone (feature : α) (props : TimeZoneProps)
      (provider_name : String) (label_min : ℤ)
deriving DecidableEq

/-- The `all_features` accumulation loop over distance bands in
`generate_all_zones_for_provider`: a band whose result is absent is
skipped, the remaining bands still run. -/
def appendDistanceBands {α : Type} (m : TrafficModelState) (name : String)
    (lat lon : ℚ) (pincode mode : String) (hour day_of_week month : ℤ)
    (md : TrafficMetadata) (post : IsoPayload → ℕ → Except String (List α)) :
    List ℚ → List (ZoneFeature α) → List (ZoneFeature α)
  | [], acc => acc
  | d :: rest, acc =>
    match distance_band_features m lat lon d pincode mode hour day_of_week month md post with
    | some fps =>
      appendDistanceBands m name lat lon pincode mode hour day_of_week month md post rest
        (acc ++ fps.map fun fp => .distanceZone fp.1 fp.2 name d)
    | none =>
      appendDistanceBands m name lat lon pincode mode hour day_of_week month md post rest acc

/-- The `all_features` accumulation loop over time bands. -/
def appendTimeBands {α : Type} (name : String) (lat lon : ℚ) (mode : String)
    (md : TrafficMetadata) (post : IsoPayload → ℕ → Except String (List α)) :
    List ℤ → List (ZoneFeature α) → List (ZoneFeature α)
  | [], acc => acc
  | t :: rest, acc =>
    match time_band_features lat lon t mode md post with
    | some fps =>
      appendTimeBands name lat lon mode md post rest
        (acc ++ fps.map fun fp => .timeZone fp.1 fp.2 name t)
    | none =>
      appendTimeBands name lat lon mode md post rest acc

/-- The combined GeoJSON document built per provider. -/
structure ZoneDoc (α : Type) where
  provider_name : String
  center_lat : ℚ
  center_lon : ℚ
  pincode : String
  mode : String
  total_zones : ℕ
  distance_zones : List ℚ
  time_zones : List ℤ
  generation_conditions : TrafficMetadata
  features : List (ZoneFeature α)

/-- `generate_all_zones_for_provider` (with `quiet=True`, as the batch
processor calls it): run every distance band then every time band,
collecting tagged features, and assemble the combined document. -/
def generate_all_zones_for_provider {α : Type} (m : TrafficModelState)
    (name : String) (lat lon : ℚ) (pincode : String)
    (distances_km : List ℚ) (times_minutes : List ℤ) (mode : String)
    (hour day_of_week month : ℤ)
    (post : IsoPayload → ℕ → Except String (List α)) :
    Except String (ZoneDoc α) :=
  match get_traffic_metadata m pincode hour day_of_week month with
  | none => .error "IndexError"
  | some md =>
    let afterDistances :=
      appendDistanceBands m name lat lon pincode mode hour day_of_week month md post
        distances_km []
    let all_features :=
      appendTimeBands name lat lon mode md post times_minutes afterDistances
    .ok { provider_name := name, center_lat := lat, center_lon := lon
          pincode := pincode, mode := mode
          total_zones := all_features.length
          distance_zones := distances_km, time_zones := times_minutes
          generation_conditions := md
          features := all_features }

/-- The per-task result record built by
`ExcelBatchProcessor.process_single_provider`. -/
structure TaskResult (α : Type) where
  status : String
  zones_count : ℕ
  geojson : Option (ZoneDoc α)
  error : Option String

/-- `process_single_provider`: any exception from zone generation (and the
deliberate `raise` on an empty feature list) is caught and recorded as a
`failed` result; otherwise a `success` result carries the document. -/
def process_single_provider {α : Type} (gen : Except String (ZoneDoc α)) :
    TaskResult α :=
  match gen with
  | .error e => { status := "failed", zones_count := 0, geojson := none, error := some e }
  | .ok doc =>
    if doc.features.isEmpty then
      { status := "failed", zones_count := 0, geojson := none
        error := some "No zones generated successfully" }
    else
      { status := "success", zones_count := doc.features.length
        geojson := some doc, error := none }

end GeoJson

namespace GeoJson

/-- Per-band contribution of one distance band to `all_features`: the tagged
features on success, nothing when the band failed after all retries. -/
def distanceBandContribution {α : Type} (m : TrafficModelState) (name : String)
    (lat lon : ℚ) (pincode mode : String) (hour day_of_week month : ℤ)
    (md : TrafficMetadata) (post : IsoPayload → ℕ → Except String (List α))
    (d : ℚ) : List (ZoneFeature α) :=
  match distance_band_features m lat lon d pincode mode hour day_of_week month md post with
  | some fps => fps.map fun fp => .distanceZone fp.1 fp.2 name d
  | none => []

/-- Per-band contribution of one time band to `all_features`. -/
def timeBandContribution {α : Type} (name : String) (lat lon : ℚ)
    (mode : String) (md : TrafficMetadata)
    (post : IsoPayload → ℕ → Except String (List α)) (t : ℤ) :
    List (ZoneFeature α) :=
  match time_band_features lat lon t mode md post with
  | some fps => fps.map fun fp => .timeZone fp.1 fp.2 name t
  | none => []

theorem appendDistanceBands_eq {α : Type} (m : TrafficModelState)
    (name : String) (lat lon : ℚ) (pincode mode : String)
    (hour day_of_week month : ℤ) (md : TrafficMetadata)
    (post : IsoPayload → ℕ → Except String (List α)) :
    ∀ (ds : List ℚ) (acc : List (ZoneFeature α)),
      appendDistanceBands m name lat lon pincode mode hour day_of_week month md post ds acc =
        acc ++ (ds.map
          (distanceBandContribution m name lat lon pincode mode hour day_of_week month md post)).flatten := by
  intro ds
  induction ds with
  | nil => intro acc; simp [appendDistanceBands]
  | cons d rest ih =>
    intro acc
    cases h : distance_band_features m lat lon d pincode mode hour day_of_week month md post with
    | some fps =>
      have hc : distanceBandContribution m name lat lon pincode mode hour day_of_week month md post d =
          fps.map fun fp => .distanceZone fp.1 fp.2 name d := by
        simp only [distanceBandContribution, h]
      simp only [appendDistanceBands, h]
      rw [ih, List.map_cons, List.flatten_cons, hc, List.append_assoc]
    | none =>
      have hc : distanceBandContribution m name lat lon pincode mode hour day_of_week month md post d =
          [] := by
        simp only [distanceBandContribution, h]
      simp only [appendDistanceBands, h]
      rw [ih, List.map_cons, List.flatten_cons, hc, List.nil_append]

theorem appendTimeBands_eq {α : Type} (name : String) (lat lon : ℚ)
    (mode : String) (md : TrafficMetadata)
    (post : IsoPayload → ℕ → Except String (List α)) :
    ∀ (ts : List ℤ) (acc : List (ZoneFeature α)),
      appendTimeBands name lat lon mode md post ts acc =
        acc ++ (ts.map (timeBandContribution name lat lon mode md post)).flatten := by
  intro ts
  induction ts with
  | nil => intro acc; simp [appendTimeBands]
  | cons t rest ih =>
    intro acc
    cases h : time_band_features lat lon t mode md post with
    | some fps =>
      have hc : timeBandContribution name lat lon mode md post t =
          fps.map fun fp => .timeZone fp.1 fp.2 name t := by
        simp only [timeBandContribution, h]
      simp only [appendTimeBands, h]
      rw [ih, List.map_cons, List.flatten_cons, hc, List.append_assoc]
    | none =>
      have hc : timeBandContribution name lat lon mode md post t = [] := by
        simp only [timeBandContribution, h]
      simp only [appendTimeBands, h]
      rw [ih, List.map_cons, List.flatten_cons, hc, List.nil_append]

end GeoJson

/-- C5: for every requested distance band the value sent to the routing
service is the traffic-adjusted distance (requested km times the traffic
factor, rounded to 2 decimals) while each output feature retains both the
requested and the adjusted value; for every requested duration band the
value sent is the requested minutes unadjusted; traffic metadata is
attached to the features of both kinds of zones. -/
theorem C5_distance_adjusted_time_unadjusted
    (m : GeoJson.TrafficModelState) (lat lon distance_km : ℚ)
    (time_minutes : ℤ) (pincode mode : String) (hour day_of_week month : ℤ)
    (md : GeoJson.TrafficMetadata)
    (hmd : GeoJson.get_traffic_metadata m pincode hour day_of_week month = some md) :
    (GeoJson.distance_zone_payload m lat lon distance_km pincode mode hour
        day_of_week month).contour_distance =
      some (GeoJson.pyRound 2 (distance_km *
        GeoJson.calculate_traffic_factor m pincode hour day_of_week month)) ∧
    (GeoJson.distance_zone_payload m lat lon distance_km pincode mode hour
        day_of_week month).contour_time = none ∧
    (∀ (α : Type) (post : GeoJson.IsoPayload → ℕ → Except String (List α))
        (feats : List (α × GeoJson.DistanceZoneProps)),
      GeoJson.generate_traffic_aware_distance_zone m lat lon distance_km pincode
          mode hour day_of_week month post = .ok (some feats) →
      ∀ fp ∈ feats,
        fp.2.requested_distance_km = distance_km ∧
        fp.2.adjusted_distance_km =
          GeoJson.adjust_distance_for_traffic m distance_km pincode hour day_of_week month ∧
        fp.2.meta = md) ∧
    (GeoJson.time_zone_payload lat lon time_minutes mode).contour_time =
      some time_minutes ∧
    (GeoJson.time_zone_payload lat lon time_minutes mode).contour_distance = none ∧
    (∀ (α : Type) (post : GeoJson.IsoPayload → ℕ → Except String (List α))
        (feats : List (α × GeoJson.TimeZoneProps)),
      GeoJson.generate_traffic_aware_time_zone m lat lon time_minutes pincode
          mode hour day_of_week month post = .ok (some feats) →
      ∀ fp ∈ feats, fp.2.time_minutes = time_minutes ∧ fp.2.meta = md) := by
  refine ⟨rfl, rfl, ?_, rfl, rfl, ?_⟩
  · intro α post feats h fp hfp
    rw [GeoJson.generate_traffic_aware_distance_zone, hmd] at h
    replace h := Except.ok.inj h
    rw [GeoJson.distance_band_features, Option.map_eq_some'] at h
    obtain ⟨raw, _hraw, hfe⟩ := h
    subst hfe
    rw [List.mem_map] at hfp
    obtain ⟨f, _hf, rfl⟩ := hfp
    exact ⟨rfl, rfl, rfl⟩
  · intro α post feats h fp hfp
    rw [GeoJson.generate_traffic_aware_time_zone, hmd] at h
    replace h := Except.ok.inj h
    rw [GeoJson.time_band_features, Option.map_eq_some'] at h
    obtain ⟨raw, _hraw, hfe⟩ := h
    subst hfe
    rw [List.mem_map] at hfp
    obtain ⟨f, _hf, rfl⟩ := hfp
    exact ⟨rfl, rfl⟩

/-- Witness for C5 at a concrete model, pincode, time and band values; the
metadata hypothesis is discharged by evaluation. -/
theorem C5_distance_adjusted_time_unadjusted_witness :
    GeoJson.get_traffic_metadata
        (fun _ => some { speed_kmh := 60, confidence := 1 }) "999999" 8 0 1 =
      some { city := "default", area_type := "residential", season := "winter",
             traffic_factor := 1, traffic_condition := "Light",
             speed_reduction_percent := 0, day_of_week_name := "Monday",
             hour := 8, has_learned_data := true } ∧
    (GeoJson.distance_zone_payload (fun _ => some { speed_kmh := 60, confidence := 1 })
        0 0 5 "999999" "motorcycle" 8 0 1).contour_distance =
      some (GeoJson.pyRound 2 (5 *
        GeoJson.calculate_traffic_factor
          (fun _ => some { speed_kmh := 60, confidence := 1 }) "999999" 8 0 1)) := by
  have hf : GeoJson.calculate_traffic_factor
      (fun _ => some { speed_kmh := 60, confidence := 1 }) "999999" 8 0 1 = 1 := by
    unfold GeoJson.calculate_traffic_factor
    norm_num
  have hc : GeoJson.detect_city_from_pincode "999999" = "default" := by decide
  have ha : GeoJson.detect_area_type "999999" = "residential" := by decide
  have hr1 : GeoJson.pyRound 3 1 = 1 := by
    have h10 : ⌊((1 : ℚ) * (10:ℚ)^3)⌋ = 1000 := by norm_num
    unfold GeoJson.pyRound GeoJson.pyRoundInt
    rw [h10]
    norm_num
  have hr0 : GeoJson.pyRound 1 (0:ℚ) = 0 := by
    have h00 : ⌊((0:ℚ) * (10:ℚ)^1)⌋ = 0 := by norm_num
    unfold GeoJson.pyRound GeoJson.pyRoundInt
    rw [h00]
    norm_num
  have hmd : GeoJson.get_traffic_metadata
      (fun _ => some { speed_kmh := 60, confidence := 1 }) "999999" 8 0 1 =
      some { city := "default", area_type := "residential", season := "winter",
             traffic_factor := 1, traffic_condition := "Light",
             speed_reduction_percent := 0, day_of_week_name := "Monday",
             hour := 8, has_learned_data := true } := by
    unfold GeoJson.get_traffic_metadata GeoJson.pyDayName
    rw [hf]
    norm_num [hc, ha, hr1, hr0, GeoJson.get_current_season]
  exact ⟨hmd,
    (C5_distance_adjusted_time_unadjusted
      (fun _ => some { speed_kmh := 60, confidence := 1 })
      0 0 5 15 "999999" "motorcycle" 8 0 1 _ hmd).1⟩

/-- C6: during zone generation for one location, a band whose request fails
after all retries contributes nothing while the other bands' features are
still collected (the document's feature list is exactly the concatenation
of the per-band contributions, a failed band contributing the empty list);
and a document whose feature list is empty after all bands were attempted
is recorded by `process_single_provider` as a failure, never as a success. -/
theorem C6_failed_band_omitted_empty_doc_failed {α : Type}
    (m : GeoJson.TrafficModelState) (name : String) (lat lon : ℚ)
    (pincode : String) (distances_km : List ℚ) (times_minutes : List ℤ)
    (mode : String) (hour day_of_week month : ℤ) (md : GeoJson.TrafficMetadata)
    (post : GeoJson.IsoPayload → ℕ → Except String (List α))
    (hmd : GeoJson.get_traffic_metadata m pincode hour day_of_week month = some md) :
    (∀ doc : GeoJson.ZoneDoc α,
      GeoJson.generate_all_zones_for_provider m name lat lon pincode distances_km
          times_minutes mode hour day_of_week month post = .ok doc →
      doc.features =
        (distances_km.map (GeoJson.distanceBandContribution m name lat lon pincode
          mode hour day_of_week month md post)).flatten ++
        (times_minutes.map (GeoJson.timeBandContribution name lat lon mode md
          post)).flatten) ∧
    (∀ doc : GeoJson.ZoneDoc α,
      GeoJson.generate_all_zones_for_provider m name lat lon pincode distances_km
          times_minutes mode hour day_of_week month post = .ok doc →
      doc.features = [] →
      (GeoJson.process_single_provider
          (GeoJson.generate_all_zones_for_provider m name lat lon pincode
            distances_km times_minutes mode hour day_of_week month post)).status =
          "failed" ∧
        (GeoJson.process_single_provider
          (GeoJson.generate_all_zones_for_provider m name lat lon pincode
            distances_km times_minutes mode hour day_of_week month post)).geojson =
          none ∧
        (GeoJson.process_single_provider
          (GeoJson.generate_all_zones_for_provider m name lat lon pincode
            distances_km times_minutes mode hour day_of_week month post)).status ≠
          "success") := by
  constructor
  · intro doc hdoc
    rw [GeoJson.generate_all_zones_for_provider, hmd] at hdoc
    replace hdoc := Except.ok.inj hdoc
    subst hdoc
    simp only
    rw [GeoJson.appendTimeBands_eq, GeoJson.appendDistanceBands_eq, List.nil_append]
  · intro doc hdoc hempty
    rw [hdoc]
    have : doc.features.isEmpty = true := by rw [hempty]; rfl
    simp [GeoJson.process_single_provider, this]

/-- Witness for C6: a single distance band and a single time band, with a
network that fails every attempt; every band is omitted, the document has
zero features, and the provider is recorded as failed. -/
theorem C6_failed_band_omitted_empty_doc_failed_witness :
    GeoJson.get_traffic_metadata
        (fun _ => some { speed_kmh := 60, confidence := 1 }) "999999" 8 0 1 =
      some { city := "default", area_type := "residential", season := "winter",
             traffic_factor := 1, traffic_condition := "Light",
             speed_reduction_percent := 0, day_of_week_name := "Monday",
             hour := 8, has_learned_data := true } ∧
    (GeoJson.process_single_provider
        (GeoJson.generate_all_zones_for_provider (α := Unit)
          (fun _ => some { speed_kmh := 60, confidence := 1 })
          "P" 0 0 "999999" [5] [15] "motorcycle" 8 0 1
          (fun _ _ => .error "connection error"))).status = "failed" := by
  have hf : GeoJson.calculate_traffic_factor
      (fun _ => some { speed_kmh := 60, confidence := 1 }) "999999" 8 0 1 = 1 := by
    unfold GeoJson.calculate_traffic_factor
    norm_num
  have hc : GeoJson.detect_city_from_pincode "999999" = "default" := by decide
  have ha : GeoJson.detect_area_type "999999" = "residential" := by decide
  have hr1 : GeoJson.pyRound 3 1 = 1 := by
    have h10 : ⌊((1 : ℚ) * (10:ℚ)^3)⌋ = 1000 := by norm_num
    unfold GeoJson.pyRound GeoJson.pyRoundInt
    rw [h10]
    norm_num
  have hr0 : GeoJson.pyRound 1 (0:ℚ) = 0 := by
    have h00 : ⌊((0:ℚ) * (10:ℚ)^1)⌋ = 0 := by norm_num
    unfold GeoJson.pyRound GeoJson.pyRoundInt
    rw [h00]
    norm_num
  have hmd : GeoJson.get_traffic_metadata
      (fun _ => some { speed_kmh := 60, confidence := 1 }) "999999" 8 0 1 =
      some { city := "default", area_type := "residential", season := "winter",
             traffic_factor := 1, traffic_condition := "Light",
             speed_reduction_percent := 0, day_of_week_name := "Monday",
             hour := 8, has_learned_data := true } := by
    unfold GeoJson.get_traffic_metadata GeoJson.pyDayName
    rw [hf]
    norm_num [hc, ha, hr1, hr0, GeoJson.get_current_season]
  refine ⟨hmd, ?_⟩
  have hband : GeoJson.distance_band_features (α := Unit)
      (fun _ => some { speed_kmh := 60, confidence := 1 }) 0 0 5 "999999"
      "motorcycle" 8 0 1
      { city := "default", area_type := "residential", season := "winter",
        traffic_factor := 1, traffic_condition := "Light",
        speed_reduction_percent := 0, day_of_week_name := "Monday",
        hour := 8, has_learned_data := true }
      (fun _ _ => .error "connection error") = none := by
    simp [GeoJson.distance_band_features, GeoJson.attemptLoop]
  have htband : GeoJson.time_band_features (α := Unit) 0 0 15 "motorcycle"
      { city := "default", area_type := "residential", season := "winter",
        traffic_factor := 1, traffic_condition := "Light",
        speed_reduction_percent := 0, day_of_week_name := "Monday",
        hour := 8, has_learned_data := true }
      (fun _ _ => .error "connection error") = none := by
    simp [GeoJson.time_band_features, GeoJson.attemptLoop]
  have hgen : GeoJson.generate_all_zones_for_provider (α := Unit)
      (fun _ => some { speed_kmh := 60, confidence := 1 })
      "P" 0 0 "999999" [5] [15] "motorcycle" 8 0 1
      (fun _ _ => .error "connection error") =
      .ok { provider_name := "P", center_lat := 0, center_lon := 0
            pincode := "999999", mode := "motorcycle", total_zones := 0
            distance_zones := [5], time_zones := [15]
            generation_conditions :=
              { city := "default", area_type := "residential", season := "winter",
                traffic_factor := 1, traffic_condition := "Light",
                speed_reduction_percent := 0, day_of_week_name := "Monday",
                hour := 8, has_learned_data := true }
            features := [] } := by
    rw [GeoJson.generate_all_zones_for_provider, hmd]
    simp only [GeoJson.appendDistanceBands, GeoJson.appendTimeBands, hband, htband,
      List.length_nil]
  exact ((C6_failed_band_omitted_empty_doc_failed
      (fun _ => some { speed_kmh := 60, confidence := 1 })
      "P" 0 0 "999999" [5] [15] "motorcycle" 8 0 1 _
      (fun _ _ => .error "connection error") hmd).2 _ hgen rfl).1

namespace GeoJson

/-! ## Strict geocoding (`geocode-new.py`)

String-level helpers model the Python operations used by the validators:
`.lower()`, `.strip()`, the `in` substring test, `.split()`, sets of words,
and the `\b(\d{6})\b` pincode regular expression. -/

/-- Boolean list-prefix test on characters. -/
def listPrefixOf : List Char → List Char → Bool
  | [], _ => true
  | _ :: _, [] => false
  | a :: as, b :: bs => a = b && listPrefixOf as bs

/-- Boolean contiguous-sublist test: Python's `needle in hay` on strings. -/
def listInfixOf : List Char → List Char → Bool
  | xs, [] => xs.isEmpty
  | xs, h :: t => listPrefixOf xs (h :: t) || listInfixOf xs t

/-- Python `needle in hay` for strings. -/
def substrOf (needle hay : String) : Bool :=
  listInfixOf needle.toList hay.toList

/-- Python `str.split()` with no separator: the maximal runs of
non-whitespace characters. -/
def pyWords (s : String) : List String :=
  (runsBy (fun c => ¬ c.isWhitespace) [] s.toList).map String.mk

/-- Python `set(s.split())`, as a duplicate-free list of words. -/
def wordSet (s : String) : List String :=
  (pyWords s).dedup

/-- The stop-word set of `validate_restaurant_name`. -/
def stop_words : List String :=
  ["restaurant", "cafe", "hotel", "foods", "kitchen", "the", "a", "an", "and", "by"]

/-- The in-order character-matching count of strategy 4 of
`validate_restaurant_name`: walk the found name, advancing a pointer into
the expected name on every character match. -/
def matchChars : List Char → List Char → ℕ
  | [], _ => 0
  | _ :: _, [] => 0
  | f :: fs, e :: es => if f = e then 1 + matchChars fs es else matchChars fs (e :: es)

/-- A regex word character (`\w`), ASCII. -/
def wordChar (c : Char) : Bool := c.isAlphanum || c = '_'

/-- `extract_pincode_from_address`: the matches of `\b(\d{6})\b` are exactly
the maximal word-character runs that consist of six digits; the last match
is returned. -/
def extract_pincode_from_address (address : String) : Option String :=
  if address = "" then none
  else
    let runs := runsBy wordChar [] address.toList
    let pincodes := runs.filter fun r => r.length = 6 && r.all Char.isDigit
    pincodes.getLast?.map String.mk

/-- `validate_city_match`: expected city (lower-cased, stripped) must occur
in the lower-cased address, directly or through the alternate-name table. -/
def validate_city_match (found_address expected_city : String) : Bool :=
  if found_address = "" ∨ expected_city = "" then false
  else
    let city_clean := pyStrip (pyLower expected_city)
    let address_lower := pyLower found_address
    if substrOf city_clean address_lower then true
    else
      let alternate : Option String :=
        if city_clean = "bangalore" then some "bengaluru"
        else if city_clean = "bengaluru" then some "bangalore"
        else if city_clean = "bombay" then some "mumbai"
        else if city_clean = "mumbai" then some "bombay"
        else if city_clean = "calcutta" then some "kolkata"
        else if city_clean = "kolkata" then some "calcutta"
        else if city_clean = "madras" then some "chennai"
        else if city_clean = "chennai" then some "madras"
        else if city_clean = "pune" then some "poona"
        else if city_clean = "poona" then some "pune"
        else none
      match alternate with
      | some alt => substrOf alt address_lower
      | none => false

/-- The abbreviation table of `validate_state_match` (empty list when the
state has no entry). -/
def state_abbrev (state_clean : String) : List String :=
  if state_clean = "andhra pradesh" then ["ap", "a.p."]
  else if state_clean = "arunachal pradesh" then ["arunachal"]
  else if state_clean = "himachal pradesh" then ["hp", "h.p."]
  else if state_clean = "madhya pradesh" then ["mp", "m.p."]
  else if state_clean = "tamil nadu" then ["tn", "t.n.", "tamilnadu"]
  else if state_clean = "uttar pradesh" then ["up", "u.p."]
  else if state_clean = "west bengal" then ["wb", "w.b.", "bengal"]
  else if state_clean = "delhi" then ["new delhi", "ncr"]
  else if state_clean = "jammu and kashmir" then ["j&k", "jk", "jammu"]
  else if state_clean = "puducherry" then ["pondicherry", "pondy"]
  else []

/-- `validate_state_match`. -/
def validate_state_match (found_address expected_state : String) : Bool :=
  if found_address = "" ∨ expected_state = "" then false
  else
    let state_clean := pyStrip (pyLower expected_state)
    let address_lower := pyLower found_address
    if substrOf state_clean address_lower then true
    else (state_abbrev state_clean).any fun ab => substrOf ab address_lower

/-- `validate_restaurant_name`: exact match, substring-containment ratio,
stop-word-filtered word-set overlap, then in-order character similarity;
returns the match flag and the best similarity score.  (Where Python would
divide by zero the branch is unreachable, earlier cases having returned.) -/
def validate_restaurant_name (found_name expected_name : String)
    (threshold : ℚ) : Bool × ℚ :=
  if found_name = "" ∨ expected_name = "" then (false, 0)
  else
    let found_clean := pyStrip (pyLower found_name)
    let expected_clean := pyStrip (pyLower expected_name)
    if found_clean = expected_clean then (true, 1)
    else
      let sub2 : Option (Bool × ℚ) :=
        if substrOf expected_clean found_clean || substrOf found_clean expected_clean then
          let shorter := min expected_clean.length found_clean.length
          let longer := max expected_clean.length found_clean.length
          let ratio : ℚ := if longer > 0 then (shorter : ℚ) / (longer : ℚ) else 0
          if ratio ≥ threshold then some (true, ratio) else none
        else none
      match sub2 with
      | some r => r
      | none =>
        let expected_words := wordSet expected_clean
        let found_words := wordSet found_clean
        let ewc0 := expected_words.filter (fun w => ¬ w ∈ stop_words)
        let fwc0 := found_words.filter (fun w => ¬ w ∈ stop_words)
        let ewc := if ewc0.isEmpty then expected_words else ewc0
        let fwc := if fwc0.isEmpty then found_words else fwc0
        let overlap := (ewc.filter (fun w => w ∈ fwc)).length
        let max_len := max ewc.length fwc.length
        let word_sim : ℚ := if max_len > 0 then (overlap : ℚ) / (max_len : ℚ) else 0
        let haveWords := ¬ ewc.isEmpty ∧ ¬ fwc.isEmpty
        if haveWords ∧ word_sim ≥ threshold then (true, word_sim)
        else
          let char_sim : ℚ :=
            (matchChars found_clean.toList expected_clean.toList : ℚ) /
              (max expected_clean.length found_clean.length : ℚ)
          if char_sim ≥ threshold then (true, char_sim)
          else (false, max (if haveWords then word_sim else 0) char_sim)

/-- `get_business_status` (identical in `geocode-new.py` and
`geocode_restaurants.py`): map the three recognized service statuses;
otherwise pass a truthy status through verbatim, and turn a missing or
empty status into `'Unknown'`. -/
def get_business_status (business_status : Option String) : String :=
  if business_status = some "OPERATIONAL" then "Open"
  else if business_status = some "CLOSED_TEMPORARILY" then "Temporarily Closed"
  else if business_status = some "CLOSED_PERMANENTLY" then "Permanently Closed"
  else
    match business_status with
    | some s => if s ≠ "" then s else "Unknown"
    | none => "Unknown"

/-- `format_opening_hours`: `none` models a missing or falsy
`currentOpeningHours` dict; `some descs` one whose `weekdayDescriptions`
list is `descs`. -/
def format_opening_hours (current_opening_hours : Option (List String)) :
    Option String :=
  match current_opening_hours with
  | none => none
  | some descs =>
    if descs ≠ [] then some (String.intercalate " | " descs) else none

end GeoJson

namespace GeoJson

/-- A spreadsheet cell holding a would-be number: `nan` when `pd.isna` is
true, `nonNumeric` when `float(...)` raises, `num q` when it converts. -/
inductive CellValue where
  | nan
  | nonNumeric
  | num (q : ℚ)
deriving DecidableEq

/-- `validate_coordinates`: reject NaN or unconvertible cells, values
outside `[-90,90] x [-180,180]`, and the placeholder pair `(0, 0)`. -/
def validate_coordinates (lat lon : CellValue) : Bool × Option ℚ × Option ℚ :=
  match lat, lon with
  | .nan, _ => (false, none, none)
  | _, .nan => (false, none, none)
  | .nonNumeric, _ => (false, none, none)
  | _, .nonNumeric => (false, none, none)
  | .num lat_float, .num lon_float =>
    if -90 ≤ lat_float ∧ lat_float ≤ 90 ∧ -180 ≤ lon_float ∧ lon_float ≤ 180 then
      if lat_float ≠ 0 ∨ lon_float ≠ 0 then (true, some lat_float, some lon_float)
      else (false, none, none)
    else (false, none, none)

/-- The per-row inputs that drive the skip/process decision of
`process_restaurants` in `geocode-new.py` (string cells are `none` when
`pd.isna` holds). -/
structure InputRow where
  found_restaurant_name_present : Bool
  provider_name : Option String
  seller_city : Option String
  state : Option String
  network_lat : CellValue
  network_long : CellValue
deriving DecidableEq

/-- What the per-row loop of `process_restaurants` does before any API
call: skip rows that already carry a found name, then rows without valid
network coordinates, then rows missing name/city/state; only the rest are
geocoded. -/
inductive RowAction where
  | skipAlreadyDone
  | skipNoData
  | geocode (net_lat net_lon : Option ℚ)
deriving DecidableEq

/-- The row dispatch of `process_restaurants` (`geocode-new.py`). -/
def process_restaurants_row_action (r : InputRow) : RowAction :=
  if r.found_restaurant_name_present then .skipAlreadyDone
  else
    match validate_coordinates r.network_lat r.network_long with
    | (false, _, _) => .skipNoData
    | (true, net_lat, net_lon) =>
      if r.provider_name.isNone ∨ r.seller_city.isNone ∨ r.state.isNone then
        .skipNoData
      else .geocode net_lat net_lon

/-- Python truthiness of an optional number (`None` and `0.0` are falsy). -/
def truthyOptNum : Option ℚ → Bool
  | some q => q ≠ 0
  | none => false

/-- Python truthiness of an optional string (`None` and `''` are falsy). -/
def truthyOptStr : Option String → Bool
  | some s => s ≠ ""
  | none => false

/-- The fields read from one place returned by the search service (the
`places[0]` dict of the New Places API response). -/
structure FoundPlace where
  location_latitude : Option ℚ
  location_longitude : Option ℚ
  formattedAddress : Option String
  displayName_text : String
  businessStatus : Option String
  currentOpeningHours : Option (List String)
  googleMapsUri : Option String
deriving DecidableEq

/-- The output-row fields filled by `geocode_restaurant_strict`. -/
structure GeoResult where
  refined_lat : Option ℚ
  refined_long : Option ℚ
  restaurant_status : Option String
  store_timings : Option String
  address : Option String
  google_maps_link : Option String
  distance_meters : Option ℚ
  found_pincode : Option String
  found_restaurant_name : Option String
deriving DecidableEq

/-- Check 3 of `geocode_restaurant_strict`: when both a pincode extracted
from the found address and an expected pincode are present, require an
exact match or agreement of the first three digits; otherwise the check is
skipped with a warning. -/
def pincode_check_ok (found_pincode : Option String) (pincode_str : String) : Bool :=
  match found_pincode with
  | some fp =>
    if pincode_str ≠ "" then
      fp = pincode_str ∨ fp.toList.take 3 = pincode_str.toList.take 3
    else true
  | none => true

/-- The per-candidate validation chain of `geocode_restaurant_strict`
(`geocode-new.py` lines 561-628), given the already-computed haversine
distance from the anchor: skip candidates without truthy coordinates and
address, compute the (informational) name-similarity score, then apply
checks 2-5 in order; on success fill every output field. -/
def geocode_candidate_check (provider_name_clean city_clean state_clean
    pincode_str : String) (p : FoundPlace) (distance : ℚ) : Option GeoResult :=
  if ¬ (truthyOptNum p.location_latitude ∧ truthyOptNum p.location_longitude ∧
        truthyOptStr p.formattedAddress) then none
  else
    let found_address := p.formattedAddress.getD ""
    let found_name := p.displayName_text
    let found_pincode := extract_pincode_from_address found_address
    let _name_score := validate_restaurant_name found_name provider_name_clean (1/2)
    if distance > 10000 then none
    else if ¬ pincode_check_ok found_pincode pincode_str then none
    else if ¬ validate_city_match found_address city_clean then none
    else if ¬ validate_state_match found_address state_clean then none
    else some
      { refined_lat := p.location_latitude.map (pyRound 6)
        refined_long := p.location_longitude.map (pyRound 6)
        restaurant_status := some (get_business_status p.businessStatus)
        store_timings := format_opening_hours p.currentOpeningHours
        address := some found_address
        google_maps_link := p.googleMapsUri
        distance_meters := some (pyRound 2 distance)
        found_pincode := found_pincode
        found_restaurant_name := some found_name }

/-! ## The rate-limited search call (`search_place_strict`, `geocode-new.py`) -/

/-- What one attempt of `search_place_strict` observes: an HTTP response
(status, body text, decoded places list) or a raised exception. -/
inductive AttemptOutcome (α : Type) where
  | http (status : ℕ) (body : String) (places : List α)
  | timeout
  | requestError (msg : String)
  | otherError (msg : String)
deriving DecidableEq

/-- Result of a full `search_place_strict` call: the returned place (or
`None`) together with the sequence of backoff sleeps performed. -/
structure SearchRun (α : Type) where
  result : Option α
  sleeps : List ℚ
deriving DecidableEq

/-- The `for attempt in range(retry_count)` loop of `search_place_strict`:
200 returns `places[0]` (or `None` when the list is empty); 429 sleeps the
dedicated 2-second backoff and retries; 400 returns `None` at once; any
other status or exception sleeps 1 second (unless this was the last
attempt) and retries; falling off the loop returns `None`. -/
def searchGo {α : Type} (attempts : ℕ → AttemptOutcome α) : ℕ → ℕ → SearchRun α
  | _, 0 => ⟨none, []⟩
  | i, n + 1 =>
    match attempts i with
    | .http status _body places =>
      if status = 200 then ⟨places.head?, []⟩
      else if status = 429 then
        let r := searchGo attempts (i + 1) n
        ⟨r.result, 2 :: r.sleeps⟩
      else if status = 400 then ⟨none, []⟩
      else if n = 0 then searchGo attempts (i + 1) n
      else
        let r := searchGo attempts (i + 1) n
        ⟨r.result, 1 :: r.sleeps⟩
    | .timeout =>
      if n = 0 then searchGo attempts (i + 1) n
      else
        let r := searchGo attempts (i + 1) n
        ⟨r.result, 1 :: r.sleeps⟩
    | .requestError _ =>
      if n = 0 then searchGo attempts (i + 1) n
      else
        let r := searchGo attempts (i + 1) n
        ⟨r.result, 1 :: r.sleeps⟩
    | .otherError _ =>
      if n = 0 then searchGo attempts (i + 1) n
      else
        let r := searchGo attempts (i + 1) n
        ⟨r.result, 1 :: r.sleeps⟩

/-- `search_place_strict` over an attempt-outcome stream. -/
def search_place_strict {α : Type} (attempts : ℕ → AttemptOutcome α)
    (retry_count : ℕ) : SearchRun α :=
  searchGo attempts 0 retry_count

/-! ## Checkpoint store (`batch.py`, `GeocoderBatch.load_progress`) -/

/-- The progress record persisted to the `_progress.json` file. -/
structure Progress where
  last_row : ℕ
  processed_count : ℕ
  success_count : ℕ
  fail_count : ℕ
  started_at : String
  last_updated : Option String
deriving DecidableEq

/-- `load_progress`.  The file argument: `none` when the progress file does
not exist, `some none` when it exists but `json.load` cannot parse it,
`some (some p)` when it parses to the record `p`.  `json.load` is called
with no exception handler, so a parse failure propagates (`.error`). -/
def load_progress (file : Option (Option Progress)) (now : String) :
    Except String Progress :=
  match file with
  | none =>
    .ok { last_row := 0, processed_count := 0, success_count := 0,
          fail_count := 0, started_at := now, last_updated := none }
  | some none => .error "json.decoder.JSONDecodeError"
  | some (some progress) => .ok progress

end GeoJson

/-- C3 counterexample: a progress file that exists but cannot be parsed
makes `load_progress` raise (the `json.load` call has no exception
handler), instead of being treated like an absent file. -/
theorem C3_counterexample :
    GeoJson.load_progress (some none) "2024-01-01T00:00:00" =
      .error "json.decoder.JSONDecodeError" ∧
    GeoJson.load_progress none "2024-01-01T00:00:00" =
      .ok { last_row := 0, processed_count := 0, success_count := 0,
            fail_count := 0, started_at := "2024-01-01T00:00:00",
            last_updated := none } :=
  ⟨rfl, rfl⟩

/-- C3 (amended): checkpoint load returns a fresh zeroed record when no
checkpoint file exists and the stored record when one parses, but a corrupt
or unreadable checkpoint file raises an uncaught parse error — loading a
corrupt record is fatal, it is not treated as an absent checkpoint. -/
theorem C3_load_progress_behavior (file : Option (Option GeoJson.Progress))
    (now : String) :
    (file = none →
      GeoJson.load_progress file now =
        .ok { last_row := 0, processed_count := 0, success_count := 0,
              fail_count := 0, started_at := now, last_updated := none }) ∧
    (∀ p, file = some (some p) → GeoJson.load_progress file now = .ok p) ∧
    (file = some none →
      GeoJson.load_progress file now = .error "json.decoder.JSONDecodeError") := by
  refine ⟨?_, ?_, ?_⟩
  · rintro rfl; rfl
  · rintro p rfl; rfl
  · rintro rfl; rfl

/-- Witness for C3's amended theorem: the absent-file case at a concrete
timestamp. -/
theorem C3_load_progress_behavior_witness :
    (none : Option (Option GeoJson.Progress)) = none ∧
    GeoJson.load_progress none "2024-01-01T00:00:00" =
      .ok { last_row := 0, processed_count := 0, success_count := 0,
            fail_count := 0, started_at := "2024-01-01T00:00:00",
            last_updated := none } :=
  ⟨rfl, (C3_load_progress_behavior none "2024-01-01T00:00:00").1 rfl⟩

/-- C8 counterexample: an unrecognized non-empty business status is passed
through verbatim, so the output is not one of the four documented strings. -/
theorem C8_counterexample :
    GeoJson.get_business_status (some "FOO") = "FOO" ∧
    "FOO" ≠ "Open" ∧ "FOO" ≠ "Temporarily Closed" ∧
    "FOO" ≠ "Permanently Closed" ∧ "FOO" ≠ "Unknown" := by
  refine ⟨rfl, ?_, ?_, ?_, ?_⟩ <;> decide

/-- C8 (amended): the place-status value is one of the four documented
strings for the three recognized service statuses and for a missing or
empty status; an unrecognized non-empty status is passed through verbatim
(and so generally falls outside the four). -/
theorem C8_business_status_range (business_status : Option String) :
    ((business_status = none ∨ business_status = some "" ∨
      business_status = some "OPERATIONAL" ∨
      business_status = some "CLOSED_TEMPORARILY" ∨
      business_status = some "CLOSED_PERMANENTLY") →
      GeoJson.get_business_status business_status ∈
        (["Open", "Temporarily Closed", "Permanently Closed", "Unknown"] : List String)) ∧
    (∀ s : String, business_status = some s → s ≠ "" → s ≠ "OPERATIONAL" →
      s ≠ "CLOSED_TEMPORARILY" → s ≠ "CLOSED_PERMANENTLY" →
      GeoJson.get_business_status business_status = s) := by
  constructor
  · rintro (rfl | rfl | rfl | rfl | rfl) <;> decide
  · rintro s rfl h0 h1 h2 h3
    simp [GeoJson.get_business_status, h0, h1, h2, h3]

/-- Witness for C8's amended theorem at the recognized status
`OPERATIONAL`. -/
theorem C8_business_status_range_witness :
    ((some "OPERATIONAL" = (none : Option String) ∨ some "OPERATIONAL" = some "" ∨
      some "OPERATIONAL" = some "OPERATIONAL" ∨
      some "OPERATIONAL" = some "CLOSED_TEMPORARILY" ∨
      some "OPERATIONAL" = some "CLOSED_PERMANENTLY")) ∧
    GeoJson.get_business_status (some "OPERATIONAL") ∈
      (["Open", "Temporarily Closed", "Permanently Closed", "Unknown"] : List String) := by
  have h : (some "OPERATIONAL" = (none : Option String) ∨ some "OPERATIONAL" = some "" ∨
      some "OPERATIONAL" = some "OPERATIONAL" ∨
      some "OPERATIONAL" = some "CLOSED_TEMPORARILY" ∨
      some "OPERATIONAL" = some "CLOSED_PERMANENTLY") := by
    right; right; left; rfl
  exact ⟨h, (C8_business_status_range (some "OPERATIONAL")).1 h⟩

/-- C9: coordinates that parse to exactly (0, 0), to out-of-range values,
or to NaN/non-numeric cells are rejected by `validate_coordinates`, and a
not-yet-processed row carrying them is skipped as having no usable
coordinates before any API call (its action is `skipNoData`, never
`geocode`). -/
theorem C9_zero_and_invalid_coords_skipped (lat lon : GeoJson.CellValue)
    (h : (lat = .num 0 ∧ lon = .num 0) ∨ lat = .nan ∨ lon = .nan ∨
         lat = .nonNumeric ∨ lon = .nonNumeric ∨
         (∃ q, lat = .num q ∧ (q < -90 ∨ 90 < q)) ∨
         (∃ q, lon = .num q ∧ (q < -180 ∨ 180 < q))) :
    GeoJson.validate_coordinates lat lon = (false, none, none) ∧
    ∀ r : GeoJson.InputRow, r.found_restaurant_name_present = false →
      r.network_lat = lat → r.network_long = lon →
      GeoJson.process_restaurants_row_action r = .skipNoData := by
  have hv : GeoJson.validate_coordinates lat lon = (false, none, none) := by
    rcases h with ⟨rfl, rfl⟩ | rfl | rfl | rfl | rfl | ⟨q, rfl, hq⟩ | ⟨q, rfl, hq⟩
    · simp [GeoJson.validate_coordinates]
    · cases lon <;> rfl
    · cases lat <;> rfl
    · cases lon <;> rfl
    · cases lat <;> rfl
    · cases lon with
      | nan => rfl
      | nonNumeric => rfl
      | num p =>
        simp only [GeoJson.validate_coordinates]
        rw [if_neg]
        rintro ⟨h1, h2, _, _⟩
        rcases hq with hq | hq <;> linarith
    · cases lat with
      | nan => rfl
      | nonNumeric => rfl
      | num p =>
        simp only [GeoJson.validate_coordinates]
        rw [if_neg]
        rintro ⟨_, _, h3, h4⟩
        rcases hq with hq | hq <;> linarith
  refine ⟨hv, ?_⟩
  intro r hpres hlat hlon
  unfold GeoJson.process_restaurants_row_action
  simp [hpres, hlat, hlon, hv]

/-- Witness for C9 at the placeholder pair (0, 0) on a row that has all
identity fields present and has not been processed yet. -/
theorem C9_zero_and_invalid_coords_skipped_witness :
    ((GeoJson.CellValue.num 0 = GeoJson.CellValue.num 0 ∧
      GeoJson.CellValue.num 0 = GeoJson.CellValue.num 0) ∨
     GeoJson.CellValue.num 0 = GeoJson.CellValue.nan ∨
     GeoJson.CellValue.num 0 = GeoJson.CellValue.nan ∨
     GeoJson.CellValue.num 0 = GeoJson.CellValue.nonNumeric ∨
     GeoJson.CellValue.num 0 = GeoJson.CellValue.nonNumeric ∨
     (∃ q, GeoJson.CellValue.num 0 = GeoJson.CellValue.num q ∧ (q < -90 ∨ 90 < q)) ∨
     (∃ q, GeoJson.CellValue.num 0 = GeoJson.CellValue.num q ∧ (q < -180 ∨ 180 < q))) ∧
    GeoJson.validate_coordinates (.num 0) (.num 0) = (false, none, none) ∧
    GeoJson.process_restaurants_row_action
      { found_restaurant_name_present := false,
        provider_name := some "Cafe Leaf", seller_city := some "Pune",
        state := some "Maharashtra",
        network_lat := .num 0, network_long := .num 0 } = .skipNoData := by
  have h : (GeoJson.CellValue.num 0 = GeoJson.CellValue.num 0 ∧
      GeoJson.CellValue.num 0 = GeoJson.CellValue.num 0) ∨
     GeoJson.CellValue.num 0 = GeoJson.CellValue.nan ∨
     GeoJson.CellValue.num 0 = GeoJson.CellValue.nan ∨
     GeoJson.CellValue.num 0 = GeoJson.CellValue.nonNumeric ∨
     GeoJson.CellValue.num 0 = GeoJson.CellValue.nonNumeric ∨
     (∃ q, GeoJson.CellValue.num 0 = GeoJson.CellValue.num q ∧ (q < -90 ∨ 90 < q)) ∨
     (∃ q, GeoJson.CellValue.num 0 = GeoJson.CellValue.num q ∧ (q < -180 ∨ 180 < q)) :=
    Or.inl ⟨rfl, rfl⟩
  refine ⟨h, (C9_zero_and_invalid_coords_skipped (.num 0) (.num 0) h).1, ?_⟩
  exact (C9_zero_and_invalid_coords_skipped (.num 0) (.num 0) h).2 _ rfl rfl rfl

/-- C1: in the per-candidate validation chain of `geocode_restaurant_strict`
the name-similarity score is informational only: a candidate farther than
10,000 m from the anchor is rejected whatever its name score, and a
candidate passing the distance, pincode, city and state checks (2-5) is
accepted whatever its name score. -/
theorem C1_validator_precedence (provider_name_clean city_clean state_clean
    pincode_str : String) (p : GeoJson.FoundPlace) (distance : ℚ) :
    (distance > 10000 →
      GeoJson.geocode_candidate_check provider_name_clean city_clean state_clean
        pincode_str p distance = none) ∧
    (GeoJson.truthyOptNum p.location_latitude = true →
     GeoJson.truthyOptNum p.location_longitude = true →
     GeoJson.truthyOptStr p.formattedAddress = true →
     distance ≤ 10000 →
     GeoJson.pincode_check_ok
       (GeoJson.extract_pincode_from_address (p.formattedAddress.getD ""))
       pincode_str = true →
     GeoJson.validate_city_match (p.formattedAddress.getD "") city_clean = true →
     GeoJson.validate_state_match (p.formattedAddress.getD "") state_clean = true →
     (GeoJson.geocode_candidate_check provider_name_clean city_clean state_clean
       pincode_str p distance).isSome = true) := by
  constructor
  · intro hd
    unfold GeoJson.geocode_candidate_check
    split_ifs <;> rfl
  · intro h1 h2 h3 hd hp hc hs
    simp only [GeoJson.geocode_candidate_check]
    rw [if_neg (not_not_intro ⟨h1, h2, h3⟩),
      if_neg (not_lt.mpr hd),
      if_neg (not_not_intro hp),
      if_neg (not_not_intro hc),
      if_neg (not_not_intro hs)]
    rfl

/-- Witness for C1: an exact-name candidate (similarity 1.0) at 15,000 m is
rejected, and a candidate with similarity score 0 that passes checks 2-5
(coordinates and address present, 50 m away, exact pincode, city and state
in the address) is accepted. -/
theorem C1_validator_precedence_witness :
    GeoJson.validate_restaurant_name "Cafe Leaf" "Cafe Leaf" (1/2) = (true, 1) ∧
    (15000 : ℚ) > 10000 ∧
    GeoJson.geocode_candidate_check "Cafe Leaf" "Pune" "Maharashtra" "411001"
      { location_latitude := some 10, location_longitude := some 20,
        formattedAddress := some "Shop 1, Pune, Maharashtra 411001",
        displayName_text := "Cafe Leaf", businessStatus := some "OPERATIONAL",
        currentOpeningHours := none, googleMapsUri := none } 15000 = none ∧
    GeoJson.validate_restaurant_name "" "Cafe Leaf" (1/2) = (false, 0) ∧
    (50 : ℚ) ≤ 10000 ∧
    (GeoJson.geocode_candidate_check "Cafe Leaf" "Pune" "Maharashtra" "411001"
      { location_latitude := some 10, location_longitude := some 20,
        formattedAddress := some "Shop 1, Pune, Maharashtra 411001",
        displayName_text := "", businessStatus := some "OPERATIONAL",
        currentOpeningHours := none, googleMapsUri := none } 50).isSome = true := by
  refine ⟨by decide, by norm_num, ?_, by decide, by norm_num, ?_⟩
  · exact (C1_validator_precedence "Cafe Leaf" "Pune" "Maharashtra" "411001"
      { location_latitude := some 10, location_longitude := some 20,
        formattedAddress := some "Shop 1, Pune, Maharashtra 411001",
        displayName_text := "Cafe Leaf", businessStatus := some "OPERATIONAL",
        currentOpeningHours := none, googleMapsUri := none } 15000).1 (by norm_num)
  · exact (C1_validator_precedence "Cafe Leaf" "Pune" "Maharashtra" "411001"
      { location_latitude := some 10, location_longitude := some 20,
        formattedAddress := some "Shop 1, Pune, Maharashtra 411001",
        displayName_text := "", businessStatus := some "OPERATIONAL",
        currentOpeningHours := none, googleMapsUri := none } 50).2
      (by decide) (by decide) (by decide) (by norm_num) (by decide) (by decide)
      (by decide)

namespace GeoJson

/-- A successful overall result can only come from some attempt within the
retry budget answering HTTP 200 with a non-empty places list; in every
other situation (including after exhausting all retries) the loop returns
`None` — it never raises. -/
theorem searchGo_result_isSome {α : Type} (attempts : ℕ → AttemptOutcome α) :
    ∀ (n i : ℕ), ((searchGo attempts i n).result).isSome = true →
      ∃ j b pl, j < n ∧ attempts (i + j) = .http 200 b pl ∧ pl ≠ [] := by
  intro n
  induction n with
  | zero => intro i h; simp [searchGo] at h
  | succ n ih =>
    intro i h
    unfold searchGo at h
    cases ha : attempts i with
    | http s b pl =>
      rw [ha] at h
      dsimp only at h
      by_cases h200 : s = 200
      · rw [if_pos h200] at h
        cases pl with
        | nil => simp at h
        | cons q qs =>
          subst h200
          exact ⟨0, b, q :: qs, Nat.succ_pos n, by simpa using ha, by simp⟩
      · rw [if_neg h200] at h
        by_cases h429 : s = 429
        · rw [if_pos h429] at h
          obtain ⟨j, b2, pl2, hj, hatt, hne⟩ := ih (i + 1) h
          exact ⟨j + 1, b2, pl2, by omega,
            by rw [show i + (j + 1) = i + 1 + j by omega]; exact hatt, hne⟩
        · rw [if_neg h429] at h
          by_cases h400 : s = 400
          · rw [if_pos h400] at h
            simp at h
          · rw [if_neg h400] at h
            by_cases hn : n = 0
            · rw [if_pos hn] at h
              subst hn
              simp [searchGo] at h
            · rw [if_neg hn] at h
              obtain ⟨j, b2, pl2, hj, hatt, hne⟩ := ih (i + 1) h
              exact ⟨j + 1, b2, pl2, by omega,
                by rw [show i + (j + 1) = i + 1 + j by omega]; exact hatt, hne⟩
    | timeout =>
      rw [ha] at h
      dsimp only at h
      by_cases hn : n = 0
      · rw [if_pos hn] at h
        subst hn
        simp [searchGo] at h
      · rw [if_neg hn] at h
        obtain ⟨j, b2, pl2, hj, hatt, hne⟩ := ih (i + 1) h
        exact ⟨j + 1, b2, pl2, by omega,
          by rw [show i + (j + 1) = i + 1 + j by omega]; exact hatt, hne⟩
    | requestError msg =>
      rw [ha] at h
      dsimp only at h
      by_cases hn : n = 0
      · rw [if_pos hn] at h
        subst hn
        simp [searchGo] at h
      · rw [if_neg hn] at h
        obtain ⟨j, b2, pl2, hj, hatt, hne⟩ := ih (i + 1) h
        exact ⟨j + 1, b2, pl2, by omega,
          by rw [show i + (j + 1) = i + 1 + j by omega]; exact hatt, hne⟩
    | otherError msg =>
      rw [ha] at h
      dsimp only at h
      by_cases hn : n = 0
      · rw [if_pos hn] at h
        subst hn
        simp [searchGo] at h
      · rw [if_neg hn] at h
        obtain ⟨j, b2, pl2, hj, hatt, hne⟩ := ih (i + 1) h
        exact ⟨j + 1, b2, pl2, by omega,
          by rw [show i + (j + 1) = i + 1 + j by omega]; exact hatt, hne⟩

end GeoJson

/-- C4 counterexample: an HTTP 403 (a 4xx other than 429) on the first
attempt is retried — the second attempt's 200 response is returned as a
success after a generic 1-second backoff, instead of the 403 being
surfaced immediately as a failure. -/
theorem C4_counterexample :
    (GeoJson.search_place_strict
      (fun i => if i = 0 then GeoJson.AttemptOutcome.http 403 "Forbidden" ([] : List String)
                else GeoJson.AttemptOutcome.http 200 "ok" ["place1"]) 2).result =
      some "place1" ∧
    (GeoJson.search_place_strict
      (fun i => if i = 0 then GeoJson.AttemptOutcome.http 403 "Forbidden" ([] : List String)
                else GeoJson.AttemptOutcome.http 200 "ok" ["place1"]) 2).sleeps = [1] :=
  ⟨rfl, rfl⟩

/-- C4 (amended): only HTTP 400 is treated as a non-retriable client error
and returns a failure (`None`) immediately without sleeping; 429 retries
after the dedicated longer 2-second backoff; every other status (including
other 4xx such as 403) and every transport error retries after the generic
1-second backoff; and a call can only return a place when some attempt
within the retry budget answered 200 with a non-empty places list —
otherwise (retries exhausted included) the caller receives `None`, never an
exception. -/
theorem C4_retry_policy {α : Type} (attempts : ℕ → GeoJson.AttemptOutcome α) :
    (∀ n b pl, attempts 0 = .http 400 b pl →
      GeoJson.search_place_strict attempts (n + 1) = ⟨none, []⟩) ∧
    (∀ n b pl, attempts 0 = .http 429 b pl →
      GeoJson.search_place_strict attempts (n + 1) =
        ⟨(GeoJson.searchGo attempts 1 n).result,
          2 :: (GeoJson.searchGo attempts 1 n).sleeps⟩) ∧
    (∀ n s b pl, s ≠ 200 → s ≠ 429 → s ≠ 400 → attempts 0 = .http s b pl →
      GeoJson.search_place_strict attempts (n + 2) =
        ⟨(GeoJson.searchGo attempts 1 (n + 1)).result,
          1 :: (GeoJson.searchGo attempts 1 (n + 1)).sleeps⟩) ∧
    (∀ n, (attempts 0 = .timeout ∨ (∃ m, attempts 0 = .requestError m) ∨
        (∃ m, attempts 0 = .otherError m)) →
      GeoJson.search_place_strict attempts (n + 2) =
        ⟨(GeoJson.searchGo attempts 1 (n + 1)).result,
          1 :: (GeoJson.searchGo attempts 1 (n + 1)).sleeps⟩) ∧
    (∀ n, ((GeoJson.search_place_strict attempts n).result).isSome = true →
      ∃ j b pl, j < n ∧ attempts j = .http 200 b pl ∧ pl ≠ []) := by
  refine ⟨?_, ?_, ?_, ?_, ?_⟩
  · intro n b pl h
    unfold GeoJson.search_place_strict
    conv_lhs => rw [GeoJson.searchGo]
    rw [h]
    norm_num
  · intro n b pl h
    unfold GeoJson.search_place_strict
    conv_lhs => rw [GeoJson.searchGo]
    rw [h]
    norm_num
  · intro n s b pl h200 h429 h400 h
    unfold GeoJson.search_place_strict
    conv_lhs => rw [GeoJson.searchGo]
    rw [h]
    dsimp only
    rw [if_neg h200, if_neg h429, if_neg h400, if_neg (by omega : ¬ n + 1 = 0)]
  · intro n h
    unfold GeoJson.search_place_strict
    rcases h with h | ⟨m, h⟩ | ⟨m, h⟩ <;>
      · conv_lhs => rw [GeoJson.searchGo]
        rw [h]
        dsimp only
        rw [if_neg (by omega : ¬ n + 1 = 0)]
  · intro n h
    have := GeoJson.searchGo_result_isSome attempts n 0 h
    simpa using this

/-- Witness for C4's amended theorem: a 429 on the first attempt sleeps the
dedicated 2-second backoff and is retried; the second attempt's 200
response is returned. -/
theorem C4_retry_policy_witness :
    (fun i => if i = 0 then GeoJson.AttemptOutcome.http 429 "rate limited" ([] : List String)
              else GeoJson.AttemptOutcome.http 200 "ok" ["place1"]) 0 =
      GeoJson.AttemptOutcome.http 429 "rate limited" [] ∧
    GeoJson.search_place_strict
      (fun i => if i = 0 then GeoJson.AttemptOutcome.http 429 "rate limited" ([] : List String)
                else GeoJson.AttemptOutcome.http 200 "ok" ["place1"]) 2 =
      ⟨some "place1", [2]⟩ := by
  refine ⟨rfl, ?_⟩
  have h := (C4_retry_policy
    (fun i => if i = 0 then GeoJson.AttemptOutcome.http 429 "rate limited" ([] : List String)
              else GeoJson.AttemptOutcome.http 200 "ok" ["place1"])).2.1 1
    "rate limited" [] rfl
  rw [h]
  rfl
